import Mathlib

/-!
Verification development for the solend-sdk / kamino-sdk crates.

The Rust sources are shallowly embedded: machine integers are modelled as
`Nat` with explicit `% 2 ^ w` at the points where the release-profile Rust
arithmetic wraps, fallible functions return `Except`, and byte buffers are
`List Nat`.  `Pubkey` is modelled as its 32-byte representation; the
source frequently converts pubkeys to base58 strings before comparing
them, and base58 rendering is injective, so string equality in the source
coincides with byte equality here.
-/

/-- A Solana public key, modelled as its byte representation. -/
abbrev Pubkey := List Nat

/-- The all-zero `Pubkey::default()` value. -/
def Pubkey.def32 : Pubkey := List.replicate 32 0

namespace Solend

/-- Embeds `enum SolendError` from `solend-sdk/src/error.rs`. -/
inductive SolendError where
  | TransactionTooLarge
  | ConversionWouldOverflow
  | FailedToParse
  | UnknownError
deriving DecidableEq

/-- Embeds `solana_sdk::instruction::AccountMeta` as used by `transaction.rs`:
only the pubkey and the signer flag are read (`is_writable` is never used). -/
structure AccountMeta where
  pubkey : Pubkey
  is_signer : Bool
deriving DecidableEq

/-- Embeds `solana_sdk::instruction::Instruction` as used by `transaction.rs`:
a program id, ordered account metas, and a data payload (only bytes). -/
structure Instruction where
  program_id : Pubkey
  accounts : List AccountMeta
  data : List Nat
deriving DecidableEq

/-- Embeds `fn boolean_to_int` of `transaction.rs`. -/
def boolean_to_int (b : Bool) : Nat :=
  match b with
  | true => 1
  | false => 0

/-- Embeds `fn get_size_of_compressed_u16` of `transaction.rs`:
`1 + boolean_to_int(n >= &128) + boolean_to_int(n >= &16384)`. -/
def get_size_of_compressed_u16 (n : Nat) : Nat :=
  1 + boolean_to_int (decide (128 ≤ n)) + boolean_to_int (decide (16384 ≤ n))

/-- The `programs` vector built by the loop at `transaction.rs:81-90`:
one entry is pushed per instruction, with no deduplication. -/
def programsOf (instructions : List Instruction) : List Pubkey :=
  instructions.map (fun ix => ix.program_id)

/-- The `signers` vector built by the loop at `transaction.rs:81-90`:
one entry per account meta whose `is_signer` flag is set, in order, with no
deduplication. -/
def signersOf (instructions : List Instruction) : List Pubkey :=
  instructions.flatMap
    (fun ix => (ix.accounts.filter (fun k => k.is_signer)).map (fun k => k.pubkey))

/-- The `accounts` vector built by the loop at `transaction.rs:81-90`:
per instruction the program id is pushed and then every referenced account,
in order, with no deduplication. -/
def accountsOf (instructions : List Instruction) : List Pubkey :=
  instructions.flatMap
    (fun ix => ix.program_id :: ix.accounts.map (fun k => k.pubkey))

/-- Embeds the per-instruction closure of `ix_map` (`transaction.rs:92-108`).
The `try_into::<u16>()` calls fail once a length exceeds 65535; the final
u16 sum wraps modulo 2^16 (release-profile Rust addition). -/
def instruction_size (ix : Instruction) : Except SolendError Nat :=
  if 65535 < ix.data.length then Except.error SolendError.ConversionWouldOverflow
  else if 65535 < ix.accounts.length then Except.error SolendError.ConversionWouldOverflow
  else Except.ok ((ix.accounts.length + get_size_of_compressed_u16 ix.accounts.length +
      get_size_of_compressed_u16 ix.data.length + ix.data.length + 1) % 65536)

/-- `true` on the `Except.error` variant, the model of `Result::is_err`. -/
def isErrB {e a : Type} : Except e a → Bool
  | Except.error _ => true
  | Except.ok _ => false

/-- The check `ix_map.any(|v| v.is_err())` at `transaction.rs:110`. -/
def anyIxError (instructions : List Instruction) : Bool :=
  (instructions.map instruction_size).any isErrB

/-- The tail of `get_size_of_transaction` (`transaction.rs:142-163`): the
`accounts_len` and `instructions_len` conversions followed by the final sum.
All additions are u16 additions, so the sum wraps modulo 2^16. -/
def finish_total (signers_len accounts_len instructions_len : Nat)
    (instruction_sizes number_of_address_lookups : Nat)
    (versioned_transaction : Bool) : Except SolendError Nat :=
  if 65535 < accounts_len then Except.error SolendError.ConversionWouldOverflow
  else if 65535 < instructions_len then Except.error SolendError.ConversionWouldOverflow
  else Except.ok
    ((get_size_of_compressed_u16 signers_len +
      signers_len * 64 +
      3 + get_size_of_compressed_u16 accounts_len +
      32 * accounts_len +
      32 +
      get_size_of_compressed_u16 instructions_len +
      instruction_sizes +
      (if versioned_transaction then 2 else 0) +
      (if versioned_transaction && (number_of_address_lookups != 0) then 32 else 0) +
      (if versioned_transaction && (number_of_address_lookups != 0) then 2 else 0) +
      number_of_address_lookups) % 65536)

/-- Embeds `fn get_size_of_transaction` (`transaction.rs:72-163`).

Two behaviours of the source worth noting, both reproduced here faithfully:

* `ix_map.any(|v| v.is_err())` at line 110 consumes the iterator, so the
  subsequent `ix_map.map(..).reduce(..)` at line 114 folds over an exhausted
  iterator, yields `None`, and `instruction_sizes` is `0` on every success
  path; when `any` does find an error the function returns
  `TransactionTooLarge` (line 111), not the `ConversionWouldOverflow` value
  produced inside the closure.
* `total_number_of_accounts - accounts.len()` at line 138 is a `usize`
  subtraction whose right-hand side can exceed the left (programs and signers
  are re-appended unconditionally), so it wraps modulo 2^64
  (release-profile Rust); the wrapped value then fails the `u16` conversion. -/
def get_size_of_transaction (instructions : List Instruction)
    (versioned_transaction : Bool)
    (address_lookup_table_addresses : Option (List Pubkey)) :
    Except SolendError Nat :=
  if anyIxError instructions then Except.error SolendError.TransactionTooLarge
  else
    -- the iterator is exhausted here, so the reduce yields None and 0 is used
    let instruction_sizes : Nat := 0
    if 65535 < (signersOf instructions).length then
      Except.error SolendError.ConversionWouldOverflow
    else
      match address_lookup_table_addresses with
      | none =>
          finish_total (signersOf instructions).length
            (accountsOf instructions).length instructions.length
            instruction_sizes 0 versioned_transaction
      | some lookup_table_addresses =>
          let total_number_of_accounts := (accountsOf instructions).length
          let accounts :=
            (accountsOf instructions).filter
              (fun account => !(lookup_table_addresses.contains account)) ++
            programsOf instructions ++ signersOf instructions
          let number_of_address_lookups :=
            (2 ^ 64 + total_number_of_accounts - accounts.length) % 2 ^ 64
          if 65535 < number_of_address_lookups then
            Except.error SolendError.ConversionWouldOverflow
          else
            finish_total (signersOf instructions).length accounts.length
              instructions.length instruction_sizes number_of_address_lookups
              versioned_transaction

end Solend

namespace Solend

/-- Helper: `List.any` is invariant under permutation of the list. -/
theorem perm_any_eq {α : Type} {l1 l2 : List α} (p : α → Bool) (h : l1.Perm l2) :
    l1.any p = l2.any p := by
  cases h1 : l1.any p <;> cases h2 : l2.any p <;> try rfl
  · rw [List.any_eq_true] at h2
    rw [Bool.eq_false_iff] at h1
    exact absurd (List.any_eq_true.mpr
      (h2.imp (fun x hx => ⟨h.mem_iff.mpr hx.1, hx.2⟩))) h1
  · rw [List.any_eq_true] at h1
    rw [Bool.eq_false_iff] at h2
    exact absurd (List.any_eq_true.mpr
      (h1.imp (fun x hx => ⟨h.mem_iff.mp hx.1, hx.2⟩))) h2

/-- Helper: permuting the instruction list permutes each of the three
collection vectors built by the loop at `transaction.rs:77-90`. -/
theorem collections_perm {ixs1 ixs2 : List Instruction} (h : ixs1.Perm ixs2) :
    (programsOf ixs1).Perm (programsOf ixs2) ∧
    (signersOf ixs1).Perm (signersOf ixs2) ∧
    (accountsOf ixs1).Perm (accountsOf ixs2) :=
  ⟨h.map _, h.flatMap_right _, h.flatMap_right _⟩

end Solend

/-- Follows the spec's words (§4.2 step 2), for comparison with the code:
"Per instruction, compute its serialized size as: 1 (program index byte) +
compact-length-of(account count) + account count + compact-length-of(data
length) + data length." -/
def spec_instruction_size (ix : Solend.Instruction) : Nat :=
  1 + Solend.get_size_of_compressed_u16 ix.accounts.length + ix.accounts.length +
    Solend.get_size_of_compressed_u16 ix.data.length + ix.data.length

/-- A one-instruction input on which the per-instruction sizes are visibly
missing from the total: no accounts and a 100-byte data payload. -/
def c1_ix : Solend.Instruction :=
  { program_id := Pubkey.def32, accounts := [], data := List.replicate 100 7 }

/-- C1: the per-instruction serialized sizes are supposed to be part of the
total, but `ix_map.any` at `transaction.rs:110` exhausts the iterator, so the
`reduce` at line 114 sees no elements and `instruction_sizes` is always `0`.
For a single instruction with a 100-byte payload the claim's per-instruction
size is `103`, yet the function returns `70`, the value of every other term
of the total alone: the 100 data bytes leave the result unchanged, which
contradicts the function's own documentation of the wire layout. -/
theorem c1_instruction_sizes_dropped :
    Solend.get_size_of_transaction [c1_ix] false none = Except.ok 70 ∧
    spec_instruction_size c1_ix = 103 ∧ (70 : Nat) < 103 :=
  ⟨rfl, rfl, by decide⟩

/-- An instruction referencing one signer account, used for C5 and C7. -/
def sg_ix : Solend.Instruction :=
  { program_id := List.replicate 32 2,
    accounts := [{ pubkey := List.replicate 32 3, is_signer := true }],
    data := [9, 9] }

/-- A plain instruction with no accounts and no data, used for C5 and C7. -/
def pl_ix : Solend.Instruction :=
  { program_id := Pubkey.def32, accounts := [], data := [] }

/-- C5 counterexample: the collections built by `get_size_of_transaction`
do NOT deduplicate.  Listing the same instruction twice pushes its program
id twice into both `programs` and `accounts`, so the account collection has
length 2 while only one distinct identifier is referenced, and the returned
total (102) charges 32 bytes for each duplicate entry. -/
theorem c5_counterexample :
    ¬ (Solend.accountsOf [pl_ix, pl_ix]).Nodup ∧
    ¬ (Solend.programsOf [pl_ix, pl_ix]).Nodup ∧
    (Solend.accountsOf [pl_ix, pl_ix]).length = 2 ∧
    (Solend.accountsOf [pl_ix, pl_ix]).dedup.length = 1 ∧
    Solend.get_size_of_transaction [pl_ix, pl_ix] false none = Except.ok 102 :=
  ⟨by decide, by decide, rfl, by decide, rfl⟩

/-- C5 as amended: the `programs`, `signers` and `accounts` vectors keep one
entry per reference, not one per distinct identifier — an identifier
referenced by several instructions contributes one entry per reference. -/
theorem c5_amended_reference_counts (ixs : List Solend.Instruction) :
    (Solend.programsOf ixs).length = ixs.length ∧
    (Solend.signersOf ixs).length =
      (ixs.map (fun ix => (ix.accounts.filter (fun k => k.is_signer)).length)).sum ∧
    (Solend.accountsOf ixs).length =
      (ixs.map (fun ix => 1 + ix.accounts.length)).sum := by
  refine ⟨by simp [Solend.programsOf], ?_, ?_⟩
  · simp [Solend.signersOf, List.length_flatMap, Function.comp_def]
  · simp [Solend.accountsOf, List.length_flatMap, Function.comp_def, Nat.add_comm]

/-- C8: the empty instruction list with `versioned = false` and no lookup
tables yields exactly 38 bytes: 1 (zero-signer compact length) + 3 (message
header) + 1 (zero-account compact length) + 32 (blockhash) + 1
(zero-instruction compact length). -/
theorem c8_empty_transaction_is_38_bytes :
    Solend.get_size_of_transaction [] false none = Except.ok 38 := rfl

/-- An instruction whose data payload has 65536 bytes, one past the u16 range. -/
def c6_ix : Solend.Instruction :=
  { program_id := Pubkey.def32, accounts := [], data := List.replicate 65536 0 }

/-- C6 counterexample: an oversized instruction makes `get_size_of_transaction`
fail, but with `TransactionTooLarge` (the error returned at
`transaction.rs:111`), not with `ConversionWouldOverflow` as claimed: the
`ConversionWouldOverflow` built inside the closure is discarded by the
`any` check. -/
theorem c6_counterexample :
    Solend.get_size_of_transaction [c6_ix] false none =
      Except.error Solend.SolendError.TransactionTooLarge ∧
    Solend.SolendError.TransactionTooLarge ≠
      Solend.SolendError.ConversionWouldOverflow := by
  constructor
  · have hl : (65535 : Nat) < c6_ix.data.length := by
      show (65535 : Nat) < (List.replicate 65536 0).length
      rw [List.length_replicate]
      decide
    have herr : Solend.isErrB (Solend.instruction_size c6_ix) = true := by
      unfold Solend.instruction_size
      rw [if_pos hl]
      rfl
    have h : Solend.anyIxError [c6_ix] = true := by
      simp only [Solend.anyIxError, List.map_cons, List.map_nil, List.any_cons,
        List.any_nil, herr, Bool.true_or]
    simp only [Solend.get_size_of_transaction, h, if_true]
  · decide

/-- C6 as amended: an instruction with more than 65535 data bytes (or more
than 65535 accounts) always aborts the computation with the
`TransactionTooLarge` error; no wrapped byte count is ever returned. -/
theorem c6_amended_overflow_error
    (ixs : List Solend.Instruction) (v : Bool) (lut : Option (List Pubkey))
    (ix : Solend.Instruction) (hmem : ix ∈ ixs)
    (hbig : 65535 < ix.data.length ∨ 65535 < ix.accounts.length) :
    Solend.get_size_of_transaction ixs v lut =
      Except.error Solend.SolendError.TransactionTooLarge := by
  have herr : Solend.isErrB (Solend.instruction_size ix) = true := by
    rcases hbig with hb | hb
    · simp [Solend.instruction_size, if_pos hb, Solend.isErrB]
    · by_cases hd : 65535 < ix.data.length
      · simp [Solend.instruction_size, hd, Solend.isErrB]
      · simp [Solend.instruction_size, hd, hb, Solend.isErrB]
  have h : Solend.anyIxError ixs = true := by
    rw [Solend.anyIxError, List.any_eq_true]
    exact ⟨Solend.instruction_size ix, List.mem_map_of_mem _ hmem, herr⟩
  simp [Solend.get_size_of_transaction, h]

/-- Witness for the amended C6 at the concrete oversized instruction. -/
theorem c6_amended_overflow_error_witness :
    c6_ix ∈ [c6_ix] ∧ 65535 < c6_ix.data.length ∧
    Solend.get_size_of_transaction [c6_ix] true none =
      Except.error Solend.SolendError.TransactionTooLarge := by
  have h1 : c6_ix ∈ [c6_ix] := List.mem_singleton.mpr rfl
  have h2 : 65535 < c6_ix.data.length := by
    show (65535 : Nat) < (List.replicate 65536 0).length
    rw [List.length_replicate]
    decide
  exact ⟨h1, h2, c6_amended_overflow_error _ true none _ h1 (Or.inl h2)⟩

/-- C7: for a fixed `versioned` flag and lookup-table set, the returned byte
count (or error) depends only on the multiset of instructions: permuting the
instruction list leaves the result of `get_size_of_transaction` unchanged. -/
theorem c7_permutation_invariance
    {ixs1 ixs2 : List Solend.Instruction} (h : ixs1.Perm ixs2)
    (v : Bool) (lut : Option (List Pubkey)) :
    Solend.get_size_of_transaction ixs1 v lut =
      Solend.get_size_of_transaction ixs2 v lut := by
  obtain ⟨hp, hs, ha⟩ := Solend.collections_perm h
  have hAny : Solend.anyIxError ixs1 = Solend.anyIxError ixs2 :=
    Solend.perm_any_eq _ (h.map _)
  have hSig := hs.length_eq
  have hAcc := ha.length_eq
  have hProg := hp.length_eq
  have hLen := h.length_eq
  cases lut with
  | none =>
      simp only [Solend.get_size_of_transaction, hAny, hSig, hAcc, hLen]
  | some l =>
      have hFil := (ha.filter (fun account => !(l.contains account))).length_eq
      simp only [Solend.get_size_of_transaction, hAny, hSig, hAcc, hLen, hProg,
        List.length_append, hFil]

/-- Witness for C7: swapping two concrete instructions yields the same size. -/
theorem c7_permutation_invariance_witness :
    ([sg_ix, pl_ix].Perm [pl_ix, sg_ix]) ∧
    Solend.get_size_of_transaction [sg_ix, pl_ix] false none =
      Solend.get_size_of_transaction [pl_ix, sg_ix] false none := by
  have hperm : ([sg_ix, pl_ix].Perm [pl_ix, sg_ix]) := List.Perm.swap _ _ _
  exact ⟨hperm, c7_permutation_invariance hperm false none⟩

namespace Bincode

/-- A byte-stream reader: consumes a prefix of the input and returns the
parsed value together with the unread remainder.  Models bincode's
incremental fixint little-endian deserializer. -/
def ByteReader (α : Type) : Type := List Nat → Option (α × List Nat)

/-- Reader returning `a` without consuming input (serde unit). -/
def readPure {α : Type} (a : α) : ByteReader α := fun l => some (a, l)

/-- Sequencing of readers: run `p`, feed its value to `f`. -/
def readBind {α β : Type} (p : ByteReader α) (f : α → ByteReader β) :
    ByteReader β := fun l =>
  match p l with
  | none => none
  | some (a, r) => f a r

/-- The always-failing reader (a bincode decode error). -/
def readFail {α : Type} : ByteReader α := fun _ => none

/-- Read one byte (serde `u8`). -/
def readByte : ByteReader Nat := fun l =>
  match l with
  | [] => none
  | b :: r => some (b, r)

/-- Read `n` raw bytes. -/
def readBytes (n : Nat) : ByteReader (List Nat) := fun l =>
  if n ≤ l.length then some (l.take n, l.drop n) else none

/-- Little-endian value of a byte list (first byte least significant). -/
def leU (bytes : List Nat) : Nat := bytes.foldr (fun b acc => b + 256 * acc) 0

/-- Read a little-endian `u16`. -/
def readU16 : ByteReader Nat := readBind (readBytes 2) (fun b => readPure (leU b))

/-- Read a little-endian `u32` (also used for the raw bits of an `f32`:
the decoder only transports the 32-bit pattern, no float arithmetic). -/
def readU32 : ByteReader Nat := readBind (readBytes 4) (fun b => readPure (leU b))

/-- Read a little-endian `u64`. -/
def readU64 : ByteReader Nat := readBind (readBytes 8) (fun b => readPure (leU b))

/-- Read a 32-byte `Pubkey`. -/
def readPubkey : ByteReader Pubkey := readBytes 32

/-- Read an `Option<Pubkey>`: bincode writes one tag byte, 0 for `None`
and 1 for `Some`; any other tag is an invalid-enum-tag error. -/
def readOptionPubkey : ByteReader (Option Pubkey) :=
  readBind readByte (fun tag =>
    if tag = 0 then readPure none
    else if tag = 1 then readBind readPubkey (fun k => readPure (some k))
    else readFail)

/-- Read `n` consecutive elements. -/
def readList {α : Type} (n : Nat) (p : ByteReader α) : ByteReader (List α) :=
  match n with
  | 0 => readPure []
  | Nat.succ m =>
      readBind p (fun a => readBind (readList m p) (fun rest => readPure (a :: rest)))

/-- Read a `Vec<T>`: a little-endian `u64` element count, then the elements
(bincode fixint encoding). -/
def readVec {α : Type} (p : ByteReader α) : ByteReader (List α) :=
  readBind readU64 (fun n => readList n p)

/-- A reader extends: a successful parse is unaffected by appending extra
bytes to the input — the extra bytes reappear unread in the remainder.
All bincode readers have this shape, which is what makes the
truncated-decode strategy agree with full-buffer decoding. -/
def ReaderExtends {α : Type} (p : ByteReader α) : Prop :=
  ∀ l t a r, p l = some (a, r) → p (l ++ t) = some (a, r ++ t)

theorem extends_readPure {α : Type} (a : α) : ReaderExtends (readPure a) := by
  intro l t a' r h
  simp only [readPure, Option.some.injEq, Prod.mk.injEq] at h ⊢
  exact ⟨h.1, by rw [h.2]⟩

theorem extends_readBind {α β : Type} {p : ByteReader α} {f : α → ByteReader β}
    (hp : ReaderExtends p) (hf : ∀ a, ReaderExtends (f a)) :
    ReaderExtends (readBind p f) := by
  intro l t b r h
  unfold readBind at h ⊢
  cases hpl : p l with
  | none => rw [hpl] at h; exact absurd h (by simp)
  | some ar =>
      obtain ⟨a, r1⟩ := ar
      rw [hpl] at h
      rw [hp l t a r1 hpl]
      exact hf a r1 t b r h

theorem extends_readByte : ReaderExtends readByte := by
  intro l t a r h
  cases l with
  | nil => exact absurd h (by simp [readByte])
  | cons b bs =>
      simp only [readByte, Option.some.injEq, Prod.mk.injEq] at h
      simp only [List.cons_append, readByte, Option.some.injEq, Prod.mk.injEq]
      exact ⟨h.1, by rw [h.2]⟩

theorem extends_readBytes (n : Nat) : ReaderExtends (readBytes n) := by
  intro l t a r h
  simp only [readBytes] at h ⊢
  by_cases hn : n ≤ l.length
  · rw [if_pos hn] at h
    rw [if_pos (by rw [List.length_append]; omega)]
    simp only [Option.some.injEq, Prod.mk.injEq] at h
    obtain ⟨h1, h2⟩ := h
    subst h1
    subst h2
    simp only [Option.some.injEq, Prod.mk.injEq]
    constructor
    · rw [List.take_append_eq_append_take, Nat.sub_eq_zero_of_le hn,
        List.take_zero, List.append_nil]
    · rw [List.drop_append_eq_append_drop, Nat.sub_eq_zero_of_le hn,
        List.drop_zero]
  · rw [if_neg hn] at h
    exact absurd h (by simp)

theorem extends_readFail {α : Type} : ReaderExtends (readFail : ByteReader α) := by
  intro l t a r h
  exact absurd h (by simp [readFail])

theorem extends_ite {α : Type} (c : Prop) [Decidable c] {p q : ByteReader α}
    (hp : ReaderExtends p) (hq : ReaderExtends q) :
    ReaderExtends (if c then p else q) := by
  by_cases h : c
  · rwa [if_pos h]
  · rwa [if_neg h]

theorem extends_readU16 : ReaderExtends readU16 :=
  extends_readBind (extends_readBytes 2) (fun _ => extends_readPure _)

theorem extends_readU32 : ReaderExtends readU32 :=
  extends_readBind (extends_readBytes 4) (fun _ => extends_readPure _)

theorem extends_readU64 : ReaderExtends readU64 :=
  extends_readBind (extends_readBytes 8) (fun _ => extends_readPure _)

theorem extends_readPubkey : ReaderExtends readPubkey := extends_readBytes 32

theorem extends_readOptionPubkey : ReaderExtends readOptionPubkey := by
  refine extends_readBind extends_readByte (fun tag => ?_)
  refine extends_ite _ (extends_readPure _) (extends_ite _ ?_ extends_readFail)
  exact extends_readBind extends_readPubkey (fun _ => extends_readPure _)

theorem extends_readList {α : Type} (n : Nat) {p : ByteReader α}
    (hp : ReaderExtends p) : ReaderExtends (readList n p) := by
  induction n with
  | zero => exact extends_readPure _
  | succ m ih =>
      exact extends_readBind hp
        (fun _ => extends_readBind ih (fun _ => extends_readPure _))

theorem extends_readVec {α : Type} {p : ByteReader α} (hp : ReaderExtends p) :
    ReaderExtends (readVec p) :=
  extends_readBind extends_readU64 (fun n => extends_readList n hp)

end Bincode

namespace Solend

open Bincode

/-- Embeds `struct RateLimiterConfig` from `state/ratelimiter.rs`. -/
structure RateLimiterConfig where
  window_duration : Nat
  max_outflow : Nat
deriving DecidableEq

/-- Embeds `struct RateLimiter` from `state/ratelimiter.rs`. -/
structure RateLimiter where
  config : RateLimiterConfig
  previous_quantity : Nat
  window_start : Nat
  current_quantity : Nat
deriving DecidableEq

/-- Embeds `struct LendingMarket` from `state/lending_market.rs`. -/
structure LendingMarket where
  version : Nat
  bump_seed : Nat
  owner : Pubkey
  quote_token_mint : Pubkey
  token_program_id : Pubkey
  oracle_program_id : Pubkey
  switchboard_oracle_program_id : Pubkey
  rate_limiter : RateLimiter
  whitelisted_liquidator : Option Pubkey
  risk_authority : Pubkey
deriving DecidableEq

/-- `pub const LENDING_MARKET_SIZE: usize = 290` (`state/lending_market.rs:198`). -/
def LENDING_MARKET_SIZE : Nat := 290

/-- The bincode field reader for `RateLimiter` (serde derive: fields in
declaration order; the nested `RateLimiterConfig` first). -/
def readRateLimiter : ByteReader RateLimiter :=
  readBind readU64 (fun window_duration =>
  readBind readU64 (fun max_outflow =>
  readBind readU64 (fun previous_quantity =>
  readBind readU64 (fun window_start =>
  readBind readU64 (fun current_quantity =>
  readPure
    { config := { window_duration := window_duration, max_outflow := max_outflow },
      previous_quantity := previous_quantity,
      window_start := window_start,
      current_quantity := current_quantity })))))

/-- The bincode field reader for `LendingMarket` (serde derive: fields in
declaration order, fixint little-endian). -/
def readLendingMarket : ByteReader LendingMarket :=
  readBind readByte (fun version =>
  readBind readByte (fun bump_seed =>
  readBind readPubkey (fun owner =>
  readBind readPubkey (fun quote_token_mint =>
  readBind readPubkey (fun token_program_id =>
  readBind readPubkey (fun oracle_program_id =>
  readBind readPubkey (fun switchboard_oracle_program_id =>
  readBind readRateLimiter (fun rate_limiter =>
  readBind readOptionPubkey (fun whitelisted_liquidator =>
  readBind readPubkey (fun risk_authority =>
  readPure
    { version := version, bump_seed := bump_seed, owner := owner,
      quote_token_mint := quote_token_mint, token_program_id := token_program_id,
      oracle_program_id := oracle_program_id,
      switchboard_oracle_program_id := switchboard_oracle_program_id,
      rate_limiter := rate_limiter,
      whitelisted_liquidator := whitelisted_liquidator,
      risk_authority := risk_authority }))))))))))

theorem extends_readRateLimiter : ReaderExtends readRateLimiter := by
  refine extends_readBind extends_readU64 (fun _ => ?_)
  refine extends_readBind extends_readU64 (fun _ => ?_)
  refine extends_readBind extends_readU64 (fun _ => ?_)
  refine extends_readBind extends_readU64 (fun _ => ?_)
  exact extends_readBind extends_readU64 (fun _ => extends_readPure _)

theorem extends_readLendingMarket : ReaderExtends readLendingMarket := by
  refine extends_readBind extends_readByte (fun _ => ?_)
  refine extends_readBind extends_readByte (fun _ => ?_)
  refine extends_readBind extends_readPubkey (fun _ => ?_)
  refine extends_readBind extends_readPubkey (fun _ => ?_)
  refine extends_readBind extends_readPubkey (fun _ => ?_)
  refine extends_readBind extends_readPubkey (fun _ => ?_)
  refine extends_readBind extends_readPubkey (fun _ => ?_)
  refine extends_readBind extends_readRateLimiter (fun _ => ?_)
  refine extends_readBind extends_readOptionPubkey (fun _ => ?_)
  exact extends_readBind extends_readPubkey (fun _ => extends_readPure _)

/-- Strategy 1 of `LendingMarket::from_bytes` (`lending_market.rs:43`):
the free function `bincode::deserialize`, whose legacy configuration is
fixint little-endian with trailing bytes allowed. -/
def bincode_deserialize (data : List Nat) : Option LendingMarket :=
  match readLendingMarket data with
  | some (m, _) => some m
  | none => none

/-- Strategy 2 of `LendingMarket::from_bytes` (`lending_market.rs:54-55`):
`get_bincode_config().deserialize`, i.e. `DefaultOptions` with explicit
little-endian, fixint encoding, and a 290-byte read limit.  Unlike the free
function, `Options::deserialize` rejects trailing bytes, so the reader must
consume the entire input; the 290-byte limit binds when more than 290 bytes
would be consumed. -/
def bincode_deserialize_custom (data : List Nat) : Option LendingMarket :=
  match readLendingMarket data with
  | some (m, []) => if data.length ≤ LENDING_MARKET_SIZE then some m else none
  | _ => none

/-- The single-position byte trials of `try_fix_enum_tag_error`
(`lending_market.rs:104-113` and `123-132`): replace the byte at `i` by 0,
reinterpret; on failure replace it by 1 and reinterpret. -/
def try_replacements (data : List Nat) (i : Nat) : Option LendingMarket :=
  match bincode_deserialize (data.set i 0) with
  | some m => some m
  | none => bincode_deserialize (data.set i 1)

/-- Embeds `LendingMarket::try_fix_enum_tag_error` (`lending_market.rs:83-137`).
The first loop scans every position holding byte value 206 and tries the two
replacements there (the buffer is restored to 206 after each failed pair, so
each trial is a single-byte mutation of the original data); the second loop
tries the replacements at every offset in `180 .. data.len() - 32`. -/
def try_fix_enum_tag_error (data : List Nat) : Except SolendError LendingMarket :=
  if data.length < 180 then Except.error SolendError.FailedToParse
  else
    match (List.range data.length).findSome?
        (fun i => if data.getD i 0 = 206 then try_replacements data i else none) with
    | some m => Except.ok m
    | none =>
        match (List.range' 180 (data.length - 32 - 180)).findSome?
            (fun off => try_replacements data off) with
        | some m => Except.ok m
        | none => Except.error SolendError.FailedToParse

/-- Embeds `LendingMarket::from_bytes` (`lending_market.rs:41-80`): strict
decode, then the custom-config decode, then (for oversized buffers) the
truncated decode of the first 290 bytes, then the enum-tag fixer. -/
def LendingMarket.from_bytes (data : List Nat) : Except SolendError LendingMarket :=
  match bincode_deserialize data with
  | some m => Except.ok m
  | none =>
    match bincode_deserialize_custom data with
    | some m => Except.ok m
    | none =>
      if LENDING_MARKET_SIZE < data.length then
        match bincode_deserialize (data.take LENDING_MARKET_SIZE) with
        | some m => Except.ok m
        | none => try_fix_enum_tag_error data
      else try_fix_enum_tag_error data

/-- The `default_rate_limiter` template of `parse_lending_market`
(`lending_market.rs:225-233`). -/
def default_rate_limiter : RateLimiter :=
  { config := { window_duration := 1, max_outflow := 0 },
    previous_quantity := 0, window_start := 0, current_quantity := 0 }

/-- Embeds `fn parse_lending_market` (`lending_market.rs:200-271`) at the
byte level (the `AccountInfo` wrapper only carries the bytes; the pubkey and
account are returned unchanged and are omitted).  When `from_bytes` fails
and the buffer contains byte value 206, a template record is fabricated:
`version` and `bump_seed` from the first two bytes, `owner` and
`quote_token_mint` from byte ranges 2..34 and 34..66 when long enough, every
other field a default (`data[2..34].try_into()` cannot fail when
`data.len() >= 34`, so the `unwrap_or([0; 32])` branch is dead). -/
def parse_lending_market (data : List Nat) : Except SolendError LendingMarket :=
  match LendingMarket.from_bytes data with
  | Except.ok market => Except.ok market
  | Except.error _ =>
    -- `data.iter().position(|&b| b == 206)` is `Some` exactly when the
    -- buffer contains the byte value 206
    if data.contains 206 then
      Except.ok
        { version := if 1 ≤ data.length then data.getD 0 0 else 1,
          bump_seed := if 2 ≤ data.length then data.getD 1 0 else 0,
          owner := if 34 ≤ data.length then (data.drop 2).take 32 else Pubkey.def32,
          quote_token_mint :=
            if 66 ≤ data.length then (data.drop 34).take 32 else Pubkey.def32,
          token_program_id := Pubkey.def32,
          oracle_program_id := Pubkey.def32,
          switchboard_oracle_program_id := Pubkey.def32,
          rate_limiter := default_rate_limiter,
          whitelisted_liquidator := none,
          risk_authority := Pubkey.def32 }
    else Except.error SolendError.FailedToParse

end Solend

namespace Kamino

open Bincode

/-- Embeds `enum KaminoError` from `kamino-sdk/src/error.rs`. -/
inductive KaminoError where
  | InvalidObligationType
  | FailedToFetch
  | FailedToParse
  | ConversionWouldOverflow
  | InvalidProgramData
  | UnknownError
  | Invalid
deriving DecidableEq

/-- Embeds `struct ElevationGroup` from `idl_types/types/elevation_groups.rs`. -/
structure ElevationGroup where
  max_liquidation_bonus_bps : Nat
  id : Nat
  ltv_pct : Nat
  liquidation_threshold_pct : Nat
  allow_new_loans : Nat
  max_reserves_as_collateral : Nat
  padding0 : Nat
  debt_reserve : Pubkey
  padding1 : List Nat
deriving DecidableEq

/-- Embeds `struct LendingMarket` from
`idl_types/accounts/lending_market.rs`.  The two `f32` fields are carried
as their 32 raw little-endian bits: the decoder only transports the bit
pattern and performs no float arithmetic. -/
structure LendingMarket where
  version : Nat
  bump_seed : Nat
  lending_market_owner : Pubkey
  lending_market_owner_cache : Pubkey
  quote_currency : List Nat
  referral_fee_bps : Nat
  emergency_mode : Nat
  auto_deleverage_enabled : Nat
  borrow_disabled : Nat
  price_refresh_trigger_to_max_age_pct : Nat
  liquidation_max_debt_close_factor_pct : Nat
  insolvency_risk_unhealthy_ltv_pct : Nat
  min_full_liquidation_value_threshold : Nat
  max_liquidatable_debt_market_value_at_once : Nat
  reserved0 : List Nat
  global_allowed_borrow_value : Nat
  risk_council : Pubkey
  reserved1 : List Nat
  elevation_groups : List ElevationGroup
  elevation_group_padding : List Nat
  min_net_value_in_obligation_sf : Nat
  min_value_skip_liquidation_ltv_checks : Nat
  name : List Nat
  min_value_skip_liquidation_bf_checks : Nat
  min_initial_deposit_amount : Nat
  obligation_orders_enabled : Nat
  padding2 : List Nat
  padding1 : List Nat
deriving DecidableEq

/-- `pub const LENDING_MARKET_SIZE: usize = 272`
(`idl_types/accounts/lending_market.rs:7`). -/
def LENDING_MARKET_SIZE : Nat := 272

/-- The bincode field reader for `ElevationGroup` (serde derive order). -/
def readElevationGroup : ByteReader ElevationGroup :=
  readBind readU16 (fun max_liquidation_bonus_bps =>
  readBind readU16 (fun id =>
  readBind readU32 (fun ltv_pct =>
  readBind readU32 (fun liquidation_threshold_pct =>
  readBind readU32 (fun allow_new_loans =>
  readBind readU32 (fun max_reserves_as_collateral =>
  readBind readU32 (fun padding0 =>
  readBind readPubkey (fun debt_reserve =>
  readBind (readVec readU64) (fun padding1 =>
  readPure
    { max_liquidation_bonus_bps := max_liquidation_bonus_bps, id := id,
      ltv_pct := ltv_pct, liquidation_threshold_pct := liquidation_threshold_pct,
      allow_new_loans := allow_new_loans,
      max_reserves_as_collateral := max_reserves_as_collateral,
      padding0 := padding0, debt_reserve := debt_reserve,
      padding1 := padding1 })))))))))

/-- The bincode field reader for the kamino `LendingMarket` (serde derive:
fields in declaration order, fixint little-endian; `Vec<_>` fields carry a
u64 element count). -/
def readLendingMarket : ByteReader LendingMarket :=
  readBind readByte (fun version =>
  readBind readU32 (fun bump_seed =>
  readBind readPubkey (fun lending_market_owner =>
  readBind readPubkey (fun lending_market_owner_cache =>
  readBind (readVec readByte) (fun quote_currency =>
  readBind readU16 (fun referral_fee_bps =>
  readBind readByte (fun emergency_mode =>
  readBind readByte (fun auto_deleverage_enabled =>
  readBind readByte (fun borrow_disabled =>
  readBind readU32 (fun price_refresh_trigger_to_max_age_pct =>
  readBind readByte (fun liquidation_max_debt_close_factor_pct =>
  readBind readU32 (fun insolvency_risk_unhealthy_ltv_pct =>
  readBind readU64 (fun min_full_liquidation_value_threshold =>
  readBind readU64 (fun max_liquidatable_debt_market_value_at_once =>
  readBind (readVec readU64) (fun reserved0 =>
  readBind readU64 (fun global_allowed_borrow_value =>
  readBind readPubkey (fun risk_council =>
  readBind (readVec readU64) (fun reserved1 =>
  readBind (readVec readElevationGroup) (fun elevation_groups =>
  readBind (readVec readU64) (fun elevation_group_padding =>
  readBind readU64 (fun min_net_value_in_obligation_sf =>
  readBind readU64 (fun min_value_skip_liquidation_ltv_checks =>
  readBind (readVec readByte) (fun name =>
  readBind readU64 (fun min_value_skip_liquidation_bf_checks =>
  readBind readU64 (fun min_initial_deposit_amount =>
  readBind readByte (fun obligation_orders_enabled =>
  readBind (readVec readByte) (fun padding2 =>
  readBind (readVec readU64) (fun padding1 =>
  readPure
    { version := version, bump_seed := bump_seed,
      lending_market_owner := lending_market_owner,
      lending_market_owner_cache := lending_market_owner_cache,
      quote_currency := quote_currency, referral_fee_bps := referral_fee_bps,
      emergency_mode := emergency_mode,
      auto_deleverage_enabled := auto_deleverage_enabled,
      borrow_disabled := borrow_disabled,
      price_refresh_trigger_to_max_age_pct := price_refresh_trigger_to_max_age_pct,
      liquidation_max_debt_close_factor_pct := liquidation_max_debt_close_factor_pct,
      insolvency_risk_unhealthy_ltv_pct := insolvency_risk_unhealthy_ltv_pct,
      min_full_liquidation_value_threshold := min_full_liquidation_value_threshold,
      max_liquidatable_debt_market_value_at_once :=
        max_liquidatable_debt_market_value_at_once,
      reserved0 := reserved0,
      global_allowed_borrow_value := global_allowed_borrow_value,
      risk_council := risk_council, reserved1 := reserved1,
      elevation_groups := elevation_groups,
      elevation_group_padding := elevation_group_padding,
      min_net_value_in_obligation_sf := min_net_value_in_obligation_sf,
      min_value_skip_liquidation_ltv_checks :=
        min_value_skip_liquidation_ltv_checks,
      name := name,
      min_value_skip_liquidation_bf_checks := min_value_skip_liquidation_bf_checks,
      min_initial_deposit_amount := min_initial_deposit_amount,
      obligation_orders_enabled := obligation_orders_enabled,
      padding2 := padding2, padding1 := padding1 }))))))))))))))))))))))))))))

theorem extends_readElevationGroup : ReaderExtends readElevationGroup := by
  refine extends_readBind extends_readU16 (fun _ => ?_)
  refine extends_readBind extends_readU16 (fun _ => ?_)
  refine extends_readBind extends_readU32 (fun _ => ?_)
  refine extends_readBind extends_readU32 (fun _ => ?_)
  refine extends_readBind extends_readU32 (fun _ => ?_)
  refine extends_readBind extends_readU32 (fun _ => ?_)
  refine extends_readBind extends_readU32 (fun _ => ?_)
  refine extends_readBind extends_readPubkey (fun _ => ?_)
  exact extends_readBind (extends_readVec extends_readU64)
    (fun _ => extends_readPure _)

theorem extends_readKaminoLendingMarket : ReaderExtends readLendingMarket := by
  refine extends_readBind extends_readByte (fun _ => ?_)
  refine extends_readBind extends_readU32 (fun _ => ?_)
  refine extends_readBind extends_readPubkey (fun _ => ?_)
  refine extends_readBind extends_readPubkey (fun _ => ?_)
  refine extends_readBind (extends_readVec extends_readByte) (fun _ => ?_)
  refine extends_readBind extends_readU16 (fun _ => ?_)
  refine extends_readBind extends_readByte (fun _ => ?_)
  refine extends_readBind extends_readByte (fun _ => ?_)
  refine extends_readBind extends_readByte (fun _ => ?_)
  refine extends_readBind extends_readU32 (fun _ => ?_)
  refine extends_readBind extends_readByte (fun _ => ?_)
  refine extends_readBind extends_readU32 (fun _ => ?_)
  refine extends_readBind extends_readU64 (fun _ => ?_)
  refine extends_readBind extends_readU64 (fun _ => ?_)
  refine extends_readBind (extends_readVec extends_readU64) (fun _ => ?_)
  refine extends_readBind extends_readU64 (fun _ => ?_)
  refine extends_readBind extends_readPubkey (fun _ => ?_)
  refine extends_readBind (extends_readVec extends_readU64) (fun _ => ?_)
  refine extends_readBind (extends_readVec extends_readElevationGroup) (fun _ => ?_)
  refine extends_readBind (extends_readVec extends_readU64) (fun _ => ?_)
  refine extends_readBind extends_readU64 (fun _ => ?_)
  refine extends_readBind extends_readU64 (fun _ => ?_)
  refine extends_readBind (extends_readVec extends_readByte) (fun _ => ?_)
  refine extends_readBind extends_readU64 (fun _ => ?_)
  refine extends_readBind extends_readU64 (fun _ => ?_)
  refine extends_readBind extends_readByte (fun _ => ?_)
  refine extends_readBind (extends_readVec extends_readByte) (fun _ => ?_)
  exact extends_readBind (extends_readVec extends_readU64)
    (fun _ => extends_readPure _)

/-- Strategy 1 of the kamino `LendingMarket::from_bytes`
(`idl_types/accounts/lending_market.rs:130`): the free function
`bincode::deserialize` — fixint little-endian, trailing bytes allowed. -/
def bincode_deserialize (data : List Nat) : Option LendingMarket :=
  match readLendingMarket data with
  | some (m, _) => some m
  | none => none

/-- Strategy 2 (`idl_types/accounts/lending_market.rs:134-137`):
`get_bincode_config().deserialize` — `DefaultOptions` with little-endian,
fixint encoding, and a 272-byte limit; `Options::deserialize` rejects
trailing bytes, so the reader must consume the whole input and may consume
at most 272 bytes. -/
def bincode_deserialize_custom (data : List Nat) : Option LendingMarket :=
  match readLendingMarket data with
  | some (m, []) => if data.length ≤ LENDING_MARKET_SIZE then some m else none
  | _ => none

/-- Embeds the kamino `LendingMarket::from_bytes`
(`idl_types/accounts/lending_market.rs:125-150`): an up-front length check
failing with `InvalidProgramData`, then strict decode, custom-config
decode, and truncated decode of the first 272 bytes. -/
def LendingMarket.from_bytes (data : List Nat) : Except KaminoError LendingMarket :=
  if data.length < LENDING_MARKET_SIZE then Except.error KaminoError.InvalidProgramData
  else
    match bincode_deserialize data with
    | some meta => Except.ok meta
    | none =>
      match bincode_deserialize_custom data with
      | some meta => Except.ok meta
      | none =>
        if LENDING_MARKET_SIZE < data.length then
          match bincode_deserialize (data.take LENDING_MARKET_SIZE) with
          | some metadata => Except.ok metadata
          | none => Except.error KaminoError.FailedToParse
        else Except.error KaminoError.FailedToParse

end Kamino

set_option maxRecDepth 100000

/-- The all-zero solend record: the decode of an all-zero buffer (the
`Option` tag byte 0 yields `whitelisted_liquidator = none`). -/
def zero_solend_market : Solend.LendingMarket :=
  ⟨0, 0, Pubkey.def32, Pubkey.def32, Pubkey.def32, Pubkey.def32, Pubkey.def32,
   ⟨⟨0, 0⟩, 0, 0, 0⟩, none, Pubkey.def32⟩

/-- The all-zero kamino record: the decode of an all-zero buffer (every
`Vec` length prefix is zero, so all list fields are empty). -/
def zero_kamino_market : Kamino.LendingMarket :=
  ⟨0, 0, Pubkey.def32, Pubkey.def32, [], 0, 0, 0, 0, 0, 0, 0, 0, 0, [], 0,
   Pubkey.def32, [], [], [], 0, 0, [], 0, 0, 0, [], []⟩

/-- A 185-byte buffer starting with byte 206: every decode strategy fails on
it, yet `parse_lending_market` fabricates a record. -/
def c2_buf : List Nat := 206 :: List.replicate 184 0

/-- C2 counterexample: on `c2_buf` the strict, relaxed and truncated decodes
all fail, yet `parse_lending_market` returns `Success` carrying a template
record whose pubkey fields are all the default (zero) address, fabricated by
the byte-206 recovery path of `lending_market.rs:219-266`.  Moreover the
`try_fix_enum_tag_error` strategy does reinterpret mutated bytes: on the
235-byte buffer whose option-tag position 202 holds 206, the strict decode of
the unmutated bytes fails, yet `from_bytes` succeeds by replacing that byte
with 0 before reinterpreting. -/
theorem c2_counterexample :
    Solend.bincode_deserialize c2_buf = none ∧
    Solend.bincode_deserialize_custom c2_buf = none ∧
    Solend.bincode_deserialize (c2_buf.take Solend.LENDING_MARKET_SIZE) = none ∧
    Solend.parse_lending_market c2_buf =
      Except.ok ⟨206, 0, Pubkey.def32, Pubkey.def32, Pubkey.def32, Pubkey.def32,
        Pubkey.def32, Solend.default_rate_limiter, none, Pubkey.def32⟩ ∧
    Solend.bincode_deserialize ((List.replicate 235 0).set 202 206) = none ∧
    Solend.LendingMarket.from_bytes ((List.replicate 235 0).set 202 206) =
      Except.ok zero_solend_market :=
  ⟨rfl, rfl, rfl, rfl, rfl, rfl⟩

/-- C2 as amended: when `from_bytes` (all four strategies, the byte-mutation
fixer included) fails and the buffer holds no byte of value 206 — so neither
recovery path applies — `parse_lending_market` does return a Failure
outcome, `FailedToParse`. -/
theorem c2_amended_failure_without_byte206 (B : List Nat) (e : Solend.SolendError)
    (h : Solend.LendingMarket.from_bytes B = Except.error e)
    (h206 : B.contains 206 = false) :
    Solend.parse_lending_market B = Except.error Solend.SolendError.FailedToParse := by
  have h206m : ¬ (206 ∈ B) := by simpa using h206
  simp [Solend.parse_lending_market, h, h206m]

/-- Witness for the amended C2 at the empty buffer. -/
theorem c2_amended_failure_without_byte206_witness :
    Solend.LendingMarket.from_bytes [] = Except.error Solend.SolendError.FailedToParse ∧
    ([] : List Nat).contains 206 = false ∧
    Solend.parse_lending_market [] = Except.error Solend.SolendError.FailedToParse :=
  ⟨rfl, rfl, c2_amended_failure_without_byte206 [] Solend.SolendError.FailedToParse rfl rfl⟩

/-- C3 counterexample: the solend decoder performs no length precheck, and a
235-byte all-zero buffer — shorter than the declared
`LENDING_MARKET_SIZE = 290` — decodes successfully on the very first
strategy (the bincode layout with a `None` liquidator needs only 235 bytes),
rather than failing with `InvalidProgramData`. -/
theorem c3_counterexample :
    (List.replicate 235 0).length < Solend.LENDING_MARKET_SIZE ∧
    Solend.LendingMarket.from_bytes (List.replicate 235 0) =
      Except.ok zero_solend_market :=
  ⟨by decide, rfl⟩

/-- C3 as amended: the short-buffer contract holds for the kamino decoder
only: for every buffer shorter than its `LENDING_MARKET_SIZE = 272`, the
kamino `from_bytes` fails immediately with `InvalidProgramData`, before any
decoding strategy is attempted. -/
theorem c3_amended_kamino_short_buffer (B : List Nat)
    (h : B.length < Kamino.LENDING_MARKET_SIZE) :
    Kamino.LendingMarket.from_bytes B =
      Except.error Kamino.KaminoError.InvalidProgramData := by
  unfold Kamino.LendingMarket.from_bytes
  rw [if_pos h]

/-- Witness for the amended C3 at the empty buffer. -/
theorem c3_amended_kamino_short_buffer_witness :
    ([] : List Nat).length < Kamino.LENDING_MARKET_SIZE ∧
    Kamino.LendingMarket.from_bytes [] =
      Except.error Kamino.KaminoError.InvalidProgramData :=
  ⟨by decide, c3_amended_kamino_short_buffer [] (by decide)⟩

/-- C4: for both decoders, an oversized buffer whose prefix of the declared
size decodes strictly yields the same record as decoding that prefix alone:
`from_bytes B` and `from_bytes (B.take expected)` both succeed with the
record parsed from the prefix. -/
theorem c4_truncated_decode_agreement :
    (∀ (B : List Nat) (m : Solend.LendingMarket) (rest : List Nat),
      Solend.LENDING_MARKET_SIZE < B.length →
      Solend.readLendingMarket (B.take Solend.LENDING_MARKET_SIZE) = some (m, rest) →
      Solend.LendingMarket.from_bytes B = Except.ok m ∧
      Solend.LendingMarket.from_bytes (B.take Solend.LENDING_MARKET_SIZE) =
        Except.ok m) ∧
    (∀ (B : List Nat) (m : Kamino.LendingMarket) (rest : List Nat),
      Kamino.LENDING_MARKET_SIZE < B.length →
      Kamino.readLendingMarket (B.take Kamino.LENDING_MARKET_SIZE) = some (m, rest) →
      Kamino.LendingMarket.from_bytes B = Except.ok m ∧
      Kamino.LendingMarket.from_bytes (B.take Kamino.LENDING_MARKET_SIZE) =
        Except.ok m) := by
  constructor
  · intro B m rest hlen hparse
    have hfull : Solend.readLendingMarket B =
        some (m, rest ++ B.drop Solend.LENDING_MARKET_SIZE) := by
      conv_lhs => rw [(List.take_append_drop Solend.LENDING_MARKET_SIZE B).symm]
      exact Solend.extends_readLendingMarket _ _ _ _ hparse
    have hdB : Solend.bincode_deserialize B = some m := by
      unfold Solend.bincode_deserialize
      rw [hfull]
    have hdP : Solend.bincode_deserialize (B.take Solend.LENDING_MARKET_SIZE) =
        some m := by
      unfold Solend.bincode_deserialize
      rw [hparse]
    constructor
    · unfold Solend.LendingMarket.from_bytes
      rw [hdB]
    · unfold Solend.LendingMarket.from_bytes
      rw [hdP]
  · intro B m rest hlen hparse
    have hfull : Kamino.readLendingMarket B =
        some (m, rest ++ B.drop Kamino.LENDING_MARKET_SIZE) := by
      conv_lhs => rw [(List.take_append_drop Kamino.LENDING_MARKET_SIZE B).symm]
      exact Kamino.extends_readKaminoLendingMarket _ _ _ _ hparse
    have hdB : Kamino.bincode_deserialize B = some m := by
      unfold Kamino.bincode_deserialize
      rw [hfull]
    have hdP : Kamino.bincode_deserialize (B.take Kamino.LENDING_MARKET_SIZE) =
        some m := by
      unfold Kamino.bincode_deserialize
      rw [hparse]
    have htk : (B.take Kamino.LENDING_MARKET_SIZE).length =
        Kamino.LENDING_MARKET_SIZE := by
      rw [List.length_take]
      omega
    constructor
    · unfold Kamino.LendingMarket.from_bytes
      rw [if_neg (by omega), hdB]
    · unfold Kamino.LendingMarket.from_bytes
      rw [htk, if_neg (by omega), hdP]

/-- Witness for C4 at a 300-byte all-zero buffer, for both decoders. -/
theorem c4_truncated_decode_agreement_witness :
    (Solend.LENDING_MARKET_SIZE < (List.replicate 300 0).length ∧
     Solend.readLendingMarket
         ((List.replicate 300 0).take Solend.LENDING_MARKET_SIZE) =
       some (zero_solend_market, List.replicate 55 0) ∧
     Solend.LendingMarket.from_bytes (List.replicate 300 0) =
       Except.ok zero_solend_market) ∧
    (Kamino.LENDING_MARKET_SIZE < (List.replicate 300 0).length ∧
     Kamino.readLendingMarket
         ((List.replicate 300 0).take Kamino.LENDING_MARKET_SIZE) =
       some (zero_kamino_market, List.replicate 36 0) ∧
     Kamino.LendingMarket.from_bytes (List.replicate 300 0) =
       Except.ok zero_kamino_market) := by
  constructor
  · refine ⟨by decide, rfl, ?_⟩
    exact (c4_truncated_decode_agreement.1 (List.replicate 300 0)
      zero_solend_market (List.replicate 55 0) (by decide) rfl).1
  · refine ⟨by decide, rfl, ?_⟩
    exact (c4_truncated_decode_agreement.2 (List.replicate 300 0)
      zero_kamino_market (List.replicate 36 0) (by decide) rfl).1

namespace Kamino

/-- Embeds `struct InitObligationArgsModel` from `utils/obligation_type.rs`. -/
structure InitObligationArgsModel where
  tag : Nat
  id : Nat
  seed1 : Pubkey
  seed2 : Pubkey
deriving DecidableEq

/-- Embeds `enum ObligationType` from `utils/obligation_type.rs`. -/
inductive ObligationType where
  | VanillaObligation (tag id : Nat) (program_id : Pubkey)
  | MultiplyObligation (tag id : Nat) (program_id coll_token debt_token : Pubkey)
  | LendingObligation (tag id : Nat) (program_id token : Pubkey)
  | LeverageObligation (tag id : Nat) (program_id coll_token debt_token : Pubkey)
deriving DecidableEq

/-- Embeds `ObligationType::get_program_id`. -/
def ObligationType.get_program_id : ObligationType → Pubkey
  | ObligationType.VanillaObligation _ _ program_id => program_id
  | ObligationType.MultiplyObligation _ _ program_id _ _ => program_id
  | ObligationType.LendingObligation _ _ program_id _ => program_id
  | ObligationType.LeverageObligation _ _ program_id _ _ => program_id

/-- Embeds `ObligationType::to_args` (`utils/obligation_type.rs:127-134`):
Vanilla uses the default address for both auxiliary seeds, Multiply and
Leverage use their two tokens, Lending uses its single token twice. -/
def ObligationType.to_args : ObligationType → InitObligationArgsModel
  | ObligationType.VanillaObligation tag id _ =>
      { tag := tag, id := id, seed1 := Pubkey.def32, seed2 := Pubkey.def32 }
  | ObligationType.MultiplyObligation tag id _ coll_token debt_token =>
      { tag := tag, id := id, seed1 := coll_token, seed2 := debt_token }
  | ObligationType.LeverageObligation tag id _ coll_token debt_token =>
      { tag := tag, id := id, seed1 := coll_token, seed2 := debt_token }
  | ObligationType.LendingObligation tag id _ token =>
      { tag := tag, id := id, seed1 := token, seed2 := token }

/-- Embeds `fn get_obligation_pda_with_args` (`utils/obligation_type.rs:137-153`).
`Pubkey::find_program_address` belongs to `solana_sdk`, outside this
repository; it is a fixed pure function of the seed slice and the program
id, passed here explicitly as the parameter `find_program_address`.  The
seed slice is built exactly as in the source: `[tag]`, `[id]`, the user
bytes, the market bytes, then the two auxiliary seeds. -/
def get_obligation_pda_with_args
    (find_program_address : List (List Nat) → Pubkey → Pubkey)
    (market user : Pubkey) (args : InitObligationArgsModel)
    (program_id : Pubkey) : Pubkey :=
  find_program_address
    [[args.tag], [args.id], user, market, args.seed1, args.seed2] program_id

/-- Embeds `ObligationType::to_pda` (`utils/obligation_type.rs:122-125`). -/
def ObligationType.to_pda
    (find_program_address : List (List Nat) → Pubkey → Pubkey)
    (self : ObligationType) (market user : Pubkey) : Pubkey :=
  get_obligation_pda_with_args find_program_address market user
    self.to_args self.get_program_id

end Kamino

/-- C9: PDA derivation is referentially transparent.  The embedding passes
`Pubkey::find_program_address` — a fixed pure function from `solana_sdk` —
explicitly, and `get_obligation_pda_with_args` threads no other state, so
two invocations whose market, user, obligation arguments and program id are
pairwise equal return the same derived address. -/
theorem c9_pda_deterministic
    (find_program_address : List (List Nat) → Pubkey → Pubkey)
    (market1 market2 user1 user2 : Pubkey)
    (args1 args2 : Kamino.InitObligationArgsModel)
    (program_id1 program_id2 : Pubkey)
    (hm : market1 = market2) (hu : user1 = user2) (ha : args1 = args2)
    (hp : program_id1 = program_id2) :
    Kamino.get_obligation_pda_with_args find_program_address market1 user1
        args1 program_id1 =
      Kamino.get_obligation_pda_with_args find_program_address market2 user2
        args2 program_id2 := by
  subst hm
  subst hu
  subst ha
  subst hp
  rfl

/-- Witness for C9 at concrete inputs, with a concrete derivation function. -/
theorem c9_pda_deterministic_witness :
    Pubkey.def32 = Pubkey.def32 ∧
    Kamino.get_obligation_pda_with_args (fun seeds pid => seeds.flatten ++ pid)
        Pubkey.def32 (List.replicate 32 1) ⟨0, 7, Pubkey.def32, Pubkey.def32⟩
        (List.replicate 32 2) =
      Kamino.get_obligation_pda_with_args (fun seeds pid => seeds.flatten ++ pid)
        Pubkey.def32 (List.replicate 32 1) ⟨0, 7, Pubkey.def32, Pubkey.def32⟩
        (List.replicate 32 2) :=
  ⟨rfl,
   c9_pda_deterministic (fun seeds pid => seeds.flatten ++ pid)
     Pubkey.def32 Pubkey.def32 (List.replicate 32 1) (List.replicate 32 1)
     ⟨0, 7, Pubkey.def32, Pubkey.def32⟩ ⟨0, 7, Pubkey.def32, Pubkey.def32⟩
     (List.replicate 32 2) (List.replicate 32 2) rfl rfl rfl rfl⟩

/-- C10: every PDA derived through `ObligationType::to_pda` is computed from
exactly the six seeds `[tag], [id], user, market, seed1, seed2` in that
order — the user address precedes the market address — and for
`VanillaObligation` both auxiliary seeds are the all-zero default address,
while for `LendingObligation` both equal the single token address. -/
theorem c10_pda_seed_order
    (find_program_address : List (List Nat) → Pubkey → Pubkey)
    (market user : Pubkey) :
    (∀ ot : Kamino.ObligationType,
      ot.to_pda find_program_address market user =
        find_program_address
          [[ot.to_args.tag], [ot.to_args.id], user, market,
           ot.to_args.seed1, ot.to_args.seed2] ot.get_program_id) ∧
    (∀ (tag id : Nat) (program_id : Pubkey),
      (Kamino.ObligationType.VanillaObligation tag id program_id).to_args.seed1 =
          Pubkey.def32 ∧
      (Kamino.ObligationType.VanillaObligation tag id program_id).to_args.seed2 =
          Pubkey.def32) ∧
    (∀ (tag id : Nat) (program_id token : Pubkey),
      (Kamino.ObligationType.LendingObligation tag id program_id token).to_args.seed1 =
          token ∧
      (Kamino.ObligationType.LendingObligation tag id program_id token).to_args.seed2 =
          token) := by
  refine ⟨?_, ?_, ?_⟩
  · intro ot
    cases ot <;> rfl
  · intro tag id program_id
    exact ⟨rfl, rfl⟩
  · intro tag id program_id token
    exact ⟨rfl, rfl⟩
